import Mathlib

/-!
Verification of the thread scheduler core of the Pintos_OS repository
(`src/threads/thread.c` and `src/threads/fixed_point.h`).

The embedding below is a shallow model of the C sources: machine `int`
(`int32_t`) values are represented by `Int`, with C's truncating division
written `Int.tdiv`; where 32-bit overflow is relevant (the fixed-point
macros applied near the edge of the representable range) the wraparound is
made explicit through `wrap32`.  The scheduler's mutable globals
(`ready_list`, `all_list`, `load_avg`, `thread_ticks`, ...) and the
per-thread fields of `struct thread` are collected in a `State` record;
every C function that mutates them becomes a `State`-transforming Lean
function.  Intrusive list membership (`elem`, `allelem`, `dona_elem`) is
represented by lists of thread indices; the `dona_elem.next != NULL`
tombstone used by `thread_remove_donation` is the boolean `dona_linked`.
C `ASSERT`s that a claim depends on are modelled by `Option` results
(`none` = assertion failure / kernel panic).  The raw context switch
(`switch_threads`, `schedule`) and the page allocator are external
collaborators; the allocator is modelled as a boolean success parameter to
`thread_create`, and yields are modelled by the boolean decision that
`thread_max_yield` computes.
-/

set_option linter.unusedVariables false

namespace PintosThreads

/-! Constants from `threads/thread.h`.  The header itself is not among the
sources; the values are fixed bit-exactly by the specification (section 6:
`PRI_MIN=0`, `PRI_DEFAULT=31`, `PRI_MAX=63`, `NICE_MIN=-20`, `NICE_MAX=20`,
`TIME_SLICE=4`, `Q=14`), matching their use in `thread.c`. -/

def PRI_MIN : Int := 0

def PRI_DEFAULT : Int := 31

def PRI_MAX : Int := 63

def NICE_MIN : Int := -20

def NICE_MAX : Int := 20

def TIME_SLICE : Nat := 4

/-! Fixed-point arithmetic, `threads/fixed_point.h`.  17.14 signed fixed
point: `Q = 14`, `F = 1 << Q = 16384`.  C integer division truncates toward
zero, hence `Int.tdiv`. -/

def F : Int := 2 ^ 14

/-- Macro `convert_to_fixed_point(n) = (n) * (F)`. -/
def convert_to_fixed_point (n : Int) : Int := n * F

/-- Macro `convert_to_int_round_down(x) = (x) / (F)` (truncation toward 0). -/
def convert_to_int_round_down (x : Int) : Int := x.tdiv F

/-- Macro `convert_to_int_round_nearest(x)`:
`x >= 0 ? (x + F/2) / F : (x - F/2) / F`. -/
def convert_to_int_round_nearest (x : Int) : Int :=
  if 0 ≤ x then (x + F.tdiv 2).tdiv F else (x - F.tdiv 2).tdiv F

/-- Macro `add_fixed_to_fixed(x, y) = (x) + (y)`. -/
def add_fixed_to_fixed (x y : Int) : Int := x + y

/-- Macro `add_fixed_to_int(x, n) = (x) + ((n) * (F))`. -/
def add_fixed_to_int (x n : Int) : Int := x + n * F

/-- Macro `fixed_subtract_fixed(x, y) = (x) - (y)`. -/
def fixed_subtract_fixed (x y : Int) : Int := x - y

/-- Macro `fixed_subtract_int(x, n) = (x) - ((n) * (F))`. -/
def fixed_subtract_int (x n : Int) : Int := x - n * F

/-- Macro `multiply_fixed_by_fixed(x, y) = ((int64_t)(x) * (y)) / (F)`. -/
def multiply_fixed_by_fixed (x y : Int) : Int := (x * y).tdiv F

/-- Macro `multiply_fixed_by_int(x, n) = (x) * (n)`. -/
def multiply_fixed_by_int (x n : Int) : Int := x * n

/-- Macro `div_fixed_by_fixed(x, y) = ((int64_t)(x) * (F)) / (y)`. -/
def div_fixed_by_fixed (x y : Int) : Int := (x * F).tdiv y

/-- Macro `div_fixed_by_int(x, n) = (x) / (n)`. -/
def div_fixed_by_int (x n : Int) : Int := x.tdiv n

/-- Reduction of a mathematical integer to a 32-bit two's-complement signed
value, used where the `int32_t` arithmetic of the macros can overflow. -/
def wrap32 (x : Int) : Int := (x + 2 ^ 31) % 2 ^ 32 - 2 ^ 31

/-- `convert_to_fixed_point` with the `int32_t` arithmetic of the macro made
explicit: the product `(n) * (F)` is a 32-bit signed multiplication. -/
def convert_to_fixed_point_i32 (n : Int) : Int := wrap32 (n * F)

/-- `convert_to_int_round_nearest` with the `int32_t` arithmetic of the macro
made explicit: the additions `x + F/2` and `x - F/2` are 32-bit signed
additions (the quotient by `F` never overflows an `int32_t`). -/
def convert_to_int_round_nearest_i32 (x : Int) : Int :=
  if 0 ≤ x then (wrap32 (x + F.tdiv 2)).tdiv F else (wrap32 (x - F.tdiv 2)).tdiv F

/-! Scheduler state, `threads/thread.c`. -/

/-- Field `status` of `struct thread` (`enum thread_status`). -/
inductive Status where
  | RUNNING
  | READY
  | BLOCKED
  | DYING
deriving DecidableEq, Repr

/-- Per-thread state: the fields of `struct thread` that the scheduler core
reads or writes.  `donations` is the intrusive list of donor threads hooked
into this thread via their `dona_elem`; `dona_linked` is the
`dona_elem.next != NULL` tombstone of `thread_remove_donation`.
Threads are identified by their index into `State.threads` (the page
address in C); `tid` is the separately allocated thread identifier. -/
structure Thread where
  tid : Int
  status : Status
  base_priority : Int
  priority : Int
  nice : Int
  recent_cpu : Int
  required_lock : Option Nat
  dona_linked : Bool
  donations : List Nat
deriving DecidableEq, Repr

/-- Value returned when a thread index is looked up out of range; its fields
are those `init_thread` zeroes (`memset (t, 0, sizeof *t)`). -/
def defaultThread : Thread :=
  { tid := 0, status := Status.BLOCKED, base_priority := 0, priority := 0,
    nice := 0, recent_cpu := 0, required_lock := none, dona_linked := false,
    donations := [] }

/-- Global scheduler state: `ready_list`, `all_list`, the lock table (holder
of each lock, `NULL` = `none`), the running thread (`thread_current`), the
`idle_thread` pointer, `thread_mlfqs`, `load_avg`, `thread_ticks`,
`allocate_tid`'s counter `next_tid`, and the statistics counters. -/
structure State where
  threads : List Thread
  ready_list : List Nat
  all_list : List Nat
  locks : List (Option Nat)
  current : Nat
  idle : Nat
  mlfqs : Bool
  load_avg : Int
  thread_ticks : Nat
  next_tid : Int
  idle_ticks : Int
  kernel_ticks : Int
deriving DecidableEq, Repr

/-- Dereference of a thread pointer. -/
def getThread (st : State) (t : Nat) : Thread := st.threads.getD t defaultThread

/-- Store through a thread pointer. -/
def setThread (st : State) (t : Nat) (th : Thread) : State :=
  { st with threads := st.threads.set t th }

/-- Dereference of `lock->holder`. -/
def getLock (st : State) (l : Nat) : Option Nat := st.locks.getD l none

/-- Function `list_insert_ordered` of the intrusive list library: scan from
the front and insert before the first element for which `less new existing`
holds (a stable ordered insert). -/
def list_insert_ordered (l : List Nat) (e : Nat) (less : Nat → Nat → Bool) : List Nat :=
  match l with
  | [] => [e]
  | x :: xs => if less e x then e :: x :: xs else x :: list_insert_ordered xs e less

/-- Function `thread_compare_priority` (thread.c:551): orders by effective
priority, strictly descending. -/
def thread_compare_priority (st : State) (a b : Nat) : Bool :=
  (getThread st a).priority > (getThread st b).priority

/-- Function `thread_compare_donation` (thread.c:480): orders the donations
list by donor effective priority, strictly descending. -/
def thread_compare_donation (st : State) (a b : Nat) : Bool :=
  (getThread st a).priority > (getThread st b).priority

/-- Function `thread_get_donated_priority` (thread.c:410): `PRI_MIN - 1` for
an empty donations list, otherwise the priority of the front donor. -/
def thread_get_donated_priority (st : State) (t : Nat) : Int :=
  match (getThread st t).donations with
  | [] => PRI_MIN - 1
  | d :: _ => (getThread st d).priority

/-- Function `thread_reinsert_ready_list` (thread.c:429): if the thread is
READY, remove it from `ready_list` and re-insert it in sorted position. -/
def thread_reinsert_ready_list (st : State) (t : Nat) : State :=
  if (getThread st t).status = Status.READY then
    { st with
      ready_list := list_insert_ordered (st.ready_list.erase t) t
        (thread_compare_priority st) }
  else st

/-- Function `thread_reset_priority` (thread.c:448): set `t->priority` to the
donated priority if it exceeds `t->base_priority`, else to `base_priority`,
then re-insert `t` into the ready queue if it is READY. -/
def thread_reset_priority (st : State) (t : Nat) : State :=
  let donated := thread_get_donated_priority st t
  let th := getThread st t
  let th' := { th with
    priority := if donated > th.base_priority then donated else th.base_priority }
  thread_reinsert_ready_list (setThread st t th') t

/-- Function `thread_get_max_priority` (thread.c:336): priority of the front
of `ready_list`, or `PRI_MIN - 1` when the queue is empty. -/
def thread_get_max_priority (st : State) : Int :=
  match st.ready_list with
  | [] => PRI_MIN - 1
  | t :: _ => (getThread st t).priority

/-- Current thread's effective priority, `thread_get_priority` (thread.c:545). -/
def thread_get_priority (st : State) : Int := (getThread st st.current).priority

/-- Decision computed by `thread_max_yield` (thread.c:355): yield (via
`thread_yield` or `intr_yield_on_return`) exactly when some ready thread has
a strictly higher effective priority than the caller.  The context switch
itself is outside the modelled state. -/
def thread_max_yield_decision (st : State) : Bool :=
  thread_get_max_priority st > thread_get_priority st

/-- Function `thread_set_priority` (thread.c:467).  The leading
`ASSERT (PRI_MIN <= new_priority && new_priority <= PRI_MAX)` is modelled by
the outer guard (`none` = assertion failure).  When `thread_mlfqs` is set the
body is skipped entirely; otherwise `base_priority` of the running thread is
assigned, its effective priority reset, and `thread_max_yield` consulted
(`thread_current` asserts the caller is RUNNING). -/
def thread_set_priority (st : State) (new_priority : Int) : Option (State × Bool) :=
  if PRI_MIN ≤ new_priority ∧ new_priority ≤ PRI_MAX then
    if st.mlfqs then some (st, false)
    else if (getThread st st.current).status = Status.RUNNING then
      let t := st.current
      let st1 := setThread st t { getThread st t with base_priority := new_priority }
      let st2 := thread_reset_priority st1 t
      some (st2, thread_max_yield_decision st2)
    else none
  else none

/-- Effect of `list_remove (&t->dona_elem)`: unlink `t` from whichever
donations list its hook is threaded into (the C call relinks the hook's
neighbours without naming the list). -/
def removeFromDonations (st : State) (t : Nat) : State :=
  { st with
    threads := st.threads.map fun th => { th with donations := th.donations.erase t } }

/-- Function `thread_remove_donation` (thread.c:531): if `t->dona_elem.next`
is not `NULL`, remove the hook from its list and null the tombstone. -/
def thread_remove_donation (st : State) (t : Nat) : State :=
  if (getThread st t).dona_linked then
    let st1 := removeFromDonations st t
    setThread st1 t { getThread st1 t with dona_linked := false }
  else st

/-- Effect of `list_insert_ordered (&holder->donations, &t->dona_elem, ...)`
in `thread_donate_priority`: hook `t` into `holder`'s donations list in
sorted position (descending donor priority); the hook becomes linked. -/
def insertDonation (st : State) (holder t : Nat) : State :=
  let st1 := setThread st t { getThread st t with dona_linked := true }
  setThread st1 holder
    { getThread st1 holder with
      donations := list_insert_ordered (getThread st1 holder).donations t
        (thread_compare_donation st1) }

/-- Function `thread_donate_priority` (thread.c:492), its `while` loop made
explicit with a fuel parameter: `none` means the loop has not completed
normally within `fuel` iterations (which, when it holds for every fuel,
is non-termination) or that the `ASSERT (holder != t)` failed.  The body
follows the C exactly: while `t->required_lock` is non-null, reset `t`'s
priority, read the lock's holder, remove `t`'s old donation when `t` is not
the running thread, and only when the holder is non-null insert the donation
and advance `t` to the holder; after the loop, one final reset. -/
def thread_donate_priority : Nat → State → Nat → Option State
  | 0, _, _ => none
  | fuel + 1, st, t =>
    match (getThread st t).required_lock with
    | none => some (thread_reset_priority st t)
    | some l =>
      let st1 := thread_reset_priority st t
      let holder := getLock st1 l
      if holder = some t then none
      else
        let st2 := if st1.current ≠ t then thread_remove_donation st1 t else st1
        match holder with
        | some h => thread_donate_priority fuel (insertDonation st2 h t) h
        | none => thread_donate_priority fuel st2 t

/-- Function `get_ready_threads_size` (thread.c:565): size of `ready_list`
plus one when the running thread is not the idle thread (the leading
`ASSERT (thread_mlfqs)` holds at every call site modelled here). -/
def get_ready_threads_size (st : State) : Int :=
  (st.ready_list.length : Int) + (if st.current ≠ st.idle then 1 else 0)

/-- Numeric core of `thread_calculate_bsd_priority` (thread.c:581):
`PRI_MAX - recent_cpu/4 - 2*nice` in 17.14 fixed point, truncated to an
integer and clamped into `[PRI_MIN, PRI_MAX]`. -/
def calc_bsd_priority (recent_cpu nice : Int) : Int :=
  let fp_priority_max := convert_to_fixed_point PRI_MAX
  let temp_recent_cpu := div_fixed_by_int recent_cpu 4
  let temp_nice := convert_to_fixed_point (nice * 2)
  let result := fixed_subtract_fixed fp_priority_max temp_recent_cpu
  let result2 := fixed_subtract_fixed result temp_nice
  let new_priority := convert_to_int_round_down result2
  if new_priority < PRI_MIN then PRI_MIN
  else if new_priority > PRI_MAX then PRI_MAX
  else new_priority

/-- Function `thread_calculate_bsd_priority` (thread.c:581) as a state
update on thread `t`. -/
def thread_calculate_bsd_priority (st : State) (t : Nat) : State :=
  setThread st t
    { getThread st t with
      priority := calc_bsd_priority (getThread st t).recent_cpu (getThread st t).nice }

/-- Function `thread_calculate_load_avg` (thread.c:654):
`load_avg = (59/60)*load_avg + (1/60)*ready_threads`, each coefficient first
truncated to 17.14 fixed point by `div_fixed_by_int`. -/
def thread_calculate_load_avg (st : State) : State :=
  let fp_59 := convert_to_fixed_point 59
  let fp_1 := convert_to_fixed_point 1
  let temp_load_avg := div_fixed_by_int fp_59 60
  let temp_ready_coeff := div_fixed_by_int fp_1 60
  let temp_load_avg2 := multiply_fixed_by_fixed temp_load_avg st.load_avg
  let temp_ready_coeff2 := multiply_fixed_by_int temp_ready_coeff (get_ready_threads_size st)
  { st with load_avg := add_fixed_to_fixed temp_load_avg2 temp_ready_coeff2 }

/-- Function `thread_calculate_recent_cpu` (thread.c:682):
`recent_cpu = (2*load_avg)/(2*load_avg + 1) * recent_cpu + nice`. -/
def thread_calculate_recent_cpu (st : State) (t : Nat) : State :=
  let th := getThread st t
  let recent_cpu := th.recent_cpu
  let temp_load_avg := multiply_fixed_by_int st.load_avg 2
  let temp_sum := add_fixed_to_int temp_load_avg 1
  let coefficient := div_fixed_by_fixed temp_load_avg temp_sum
  let recent_cpu2 := multiply_fixed_by_fixed coefficient recent_cpu
  let recent_cpu3 := add_fixed_to_int recent_cpu2 th.nice
  setThread st t { th with recent_cpu := recent_cpu3 }

/-- Function `thread_foreach` (thread.c:394): apply an action to every thread
on `all_list`, front to back. -/
def thread_foreach (st : State) (f : State → Nat → State) : State :=
  st.all_list.foldl f st

/-- Function `thread_recalculate_bsd_variables` (thread.c:609): increment the
running thread's `recent_cpu` unless it is the idle thread, and at each
`TIMER_FREQ` boundary of the timer's tick count recompute `load_avg` and
every thread's `recent_cpu`.  `ticks` is the timer's post-increment tick
count (`timer_ticks ()`); `timerFreq` is the external `TIMER_FREQ` constant.
The `ASSERT (t->status == THREAD_RUNNING)` holds for the states considered
(the running thread is RUNNING). -/
def thread_recalculate_bsd_variables (timerFreq ticks : Nat) (st : State) : State :=
  let t := st.current
  let st1 :=
    if t ≠ st.idle then
      setThread st t
        { getThread st t with recent_cpu := add_fixed_to_int (getThread st t).recent_cpu 1 }
    else st
  if ticks % timerFreq = 0 then
    thread_foreach (thread_calculate_load_avg st1) thread_calculate_recent_cpu
  else st1

/-- Function `thread_tick` (thread.c:140): update the statistics counter for
the running thread, run the MLFQS cascade when `thread_mlfqs` is set, then
increment `thread_ticks` and request preemption (`intr_yield_on_return`,
the returned boolean) when the slice is used up. -/
def thread_tick (timerFreq ticks : Nat) (st : State) : State × Bool :=
  let st1 :=
    if st.current = st.idle then { st with idle_ticks := st.idle_ticks + 1 }
    else { st with kernel_ticks := st.kernel_ticks + 1 }
  let st2 := if st1.mlfqs then thread_recalculate_bsd_variables timerFreq ticks st1 else st1
  let st3 := { st2 with thread_ticks := st2.thread_ticks + 1 }
  (st3, decide (TIME_SLICE ≤ st3.thread_ticks))

/-- Function `thread_set_nice` (thread.c:629).  The guard models the three
leading assertions: `ASSERT (thread_mlfqs)`,
`ASSERT (nice >= NICE_MIN && nice <= NICE_MAX)`, and `thread_current ()`'s
`ASSERT (t->status == THREAD_RUNNING)`; `none` is an assertion failure.  The
body stores `nice`, recomputes the running thread's priority with the MLFQS
formula, re-inserts it into the ready queue if it is READY, and consults
`thread_max_yield`. -/
def thread_set_nice (st : State) (nice : Int) : Option (State × Bool) :=
  if st.mlfqs = true ∧ (NICE_MIN ≤ nice ∧ nice ≤ NICE_MAX)
      ∧ (getThread st st.current).status = Status.RUNNING then
    let t := st.current
    let st1 := setThread st t { getThread st t with nice := nice }
    let st2 := thread_calculate_bsd_priority st1 t
    let st3 := thread_reinsert_ready_list st2 t
    some (st3, thread_max_yield_decision st3)
  else none

/-- Function `thread_unblock` (thread.c:264): assert the thread is BLOCKED
(`none` = assertion failure), insert it into `ready_list` in sorted
position, and mark it READY. -/
def thread_unblock (st : State) (t : Nat) : Option State :=
  if (getThread st t).status = Status.BLOCKED then
    let st1 :=
      { st with ready_list := list_insert_ordered st.ready_list t (thread_compare_priority st) }
    some (setThread st1 t { getThread st1 t with status := Status.READY })
  else none

/-- Function `init_thread` (thread.c:779): assert the priority is in range
(`none` = assertion failure), zero the page, initialise the TCB as BLOCKED
with `priority = base_priority = priority` and an empty donations list, and
push it onto `all_list`.  The fresh page is the next free index of
`State.threads`. -/
def init_thread (st : State) (priority : Int) : Option State :=
  if PRI_MIN ≤ priority ∧ priority ≤ PRI_MAX then
    let th := { defaultThread with
      status := Status.BLOCKED, priority := priority, base_priority := priority }
    some { st with
      threads := st.threads ++ [th],
      all_list := st.all_list ++ [st.threads.length] }
  else none

/-- Function `allocate_tid` (thread.c:907): return the counter
(`static tid_t next_tid = 1`) and increment it. -/
def allocate_tid (st : State) : Int × State :=
  (st.next_tid, { st with next_tid := st.next_tid + 1 })

/-- Function `thread_create` (thread.c:188).  `allocOk` is the outcome of the
external page allocator `palloc_get_page`; when it fails the function
returns `TID_ERROR` (modelled `none`) at once, with every scheduler
structure untouched.  Otherwise `init_thread` runs (its priority assertion
may fail: outer `none`), a tid is allocated and stored, the three stack
frames are laid out (context-switch glue, outside this model), and the new
thread is unblocked.  The trailing `thread_max_yield` only decides whether
to context-switch and is outside the modelled state. -/
def thread_create (st : State) (allocOk : Bool) (priority : Int) :
    Option (Option Int × State) :=
  if allocOk = false then some (none, st)
  else
    match init_thread st priority with
    | none => none
    | some st1 =>
      let newIdx := st.threads.length
      let (tid, st2) := allocate_tid st1
      let st3 := setThread st2 newIdx { getThread st2 newIdx with tid := tid }
      match thread_unblock st3 newIdx with
      | none => none
      | some st4 => some (some tid, st4)

/-! Concrete states used to evaluate the model (counterexamples and
witnesses). -/

/-- Empty scheduler state used as a base for the concrete examples
(`next_tid` starts at 1 as in `allocate_tid`). -/
def baseState : State :=
  { threads := [], ready_list := [], all_list := [], locks := [], current := 0,
    idle := 0, mlfqs := false, load_avg := 0, thread_ticks := 0, next_tid := 1,
    idle_ticks := 0, kernel_ticks := 0 }

/-- Three threads: thread 0 (running, base priority 10) has received
donations from threads 1 (priority 30) and 2 (priority 20), sorted
descending. -/
def exampleResetState : State :=
  { baseState with
    threads :=
      [{ defaultThread with
          status := Status.RUNNING, base_priority := 10,
          priority := 10, donations := [1, 2] },
       { defaultThread with base_priority := 30, priority := 30, dona_linked := true },
       { defaultThread with base_priority := 20, priority := 20, dona_linked := true }],
    all_list := [0, 1, 2], idle := 3 }

/-- A thread blocked on lock 0 whose holder is `NULL`: the lock was freed
between the caller's observation and the donation walk (specification,
section 7). -/
def divergeState : State :=
  { baseState with
    threads := [{ defaultThread with
                   status := Status.RUNNING, base_priority := 31,
                   priority := 31, required_lock := some 0 }],
    locks := [none], idle := 1 }

/-- MLFQS state for the tick hook: one running thread whose stale effective
priority (63) disagrees with the MLFQS formula value for its
`recent_cpu`. -/
def tickState : State :=
  { baseState with
    threads := [{ defaultThread with
                   status := Status.RUNNING, priority := 63,
                   recent_cpu := 131072 }],
    all_list := [0], idle := 1, mlfqs := true }

/-- MLFQS state with a running thread, used for `thread_set_nice` and
`thread_set_priority`. -/
def niceState : State :=
  { baseState with
    threads := [{ defaultThread with status := Status.RUNNING, priority := 31 }],
    all_list := [0], idle := 1, mlfqs := true }

/-- MLFQS state whose `load_avg` is exactly 2.0 (`2 * 16384`) with no ready
threads and the idle thread running. -/
def loadState : State :=
  { baseState with mlfqs := true, load_avg := 32768 }

/-- State with one thread whose donation hook is detached
(`dona_elem.next == NULL`). -/
def removeState : State :=
  { baseState with
    threads := [{ defaultThread with
                   status := Status.RUNNING, base_priority := 31,
                   priority := 31 }],
    all_list := [0], idle := 1 }

/-! Helper lemmas: lists, truncating division, 32-bit wraparound. -/

theorem getD_set_self {α : Type} (l : List α) (i : Nat) (v d : α) :
    (l.set i v).getD i d = if i < l.length then v else l.getD i d := by
  induction l generalizing i with
  | nil => simp [List.set]
  | cons a as ih =>
    cases i with
    | zero => simp
    | succ j => simpa using ih j

theorem getD_set_ne {α : Type} (l : List α) (i j : Nat) (v d : α) (h : i ≠ j) :
    (l.set i v).getD j d = l.getD j d := by
  induction l generalizing i j with
  | nil => simp [List.set]
  | cons a as ih =>
    cases i with
    | zero =>
      cases j with
      | zero => exact absurd rfl h
      | succ k => simp
    | succ i' =>
      cases j with
      | zero => simp
      | succ k => simpa using ih i' k (by omega)

theorem getD_concat_length {α : Type} (l : List α) (a d : α) :
    (l ++ [a]).getD l.length d = a := by
  induction l with
  | nil => rfl
  | cons x xs ih => simp [ih]

theorem set_concat_length {α : Type} (l : List α) (a b : α) :
    (l ++ [a]).set l.length b = l ++ [b] := by
  induction l with
  | nil => rfl
  | cons x xs ih => simp [ih]

theorem foldl_max_eq {l : List Int} {a : Int} (h : ∀ x ∈ l, x ≤ a) :
    l.foldl max a = a := by
  induction l generalizing a with
  | nil => rfl
  | cons x xs ih =>
    have hx : max a x = a := max_eq_left (h x (by simp))
    simp only [List.foldl_cons, hx]
    exact ih fun y hy => h y (by simp [hy])

theorem neg_tmod_eq (a b : Int) : (-a).tmod b = -(a.tmod b) := by
  rw [Int.tmod_def, Int.tmod_def, Int.neg_tdiv]
  ring

theorem tmod_bounds (a : Int) {b : Int} (hb : 0 < b) :
    -b < a.tmod b ∧ a.tmod b < b := by
  rcases le_or_lt 0 a with ha | ha
  · exact ⟨lt_of_lt_of_le (by omega) (Int.tmod_nonneg b ha), Int.tmod_lt_of_pos a hb⟩
  · have h1 : (-a).tmod b < b := Int.tmod_lt_of_pos (-a) hb
    have h2 : 0 ≤ (-a).tmod b := Int.tmod_nonneg b (by omega)
    have h3 : (-a).tmod b = -(a.tmod b) := neg_tmod_eq a b
    constructor <;> omega

theorem wrap32_eq_self {x : Int} (h1 : -(2 ^ 31) ≤ x) (h2 : x < 2 ^ 31) :
    wrap32 x = x := by
  unfold wrap32
  have : (x + 2 ^ 31) % 2 ^ 32 = x + 2 ^ 31 :=
    Int.emod_eq_of_lt (by omega) (by omega)
  omega

theorem threads_reinsert (st : State) (t : Nat) :
    (thread_reinsert_ready_list st t).threads = st.threads := by
  unfold thread_reinsert_ready_list
  split <;> rfl

theorem getThread_setThread_self (st : State) (t : Nat) (th : Thread) :
    getThread (setThread st t th) t =
      if t < st.threads.length then th else getThread st t := by
  unfold getThread setThread
  simpa using getD_set_self st.threads t th defaultThread

theorem getD_out_of_range {α : Type} (l : List α) (i : Nat) (d : α)
    (h : l.length ≤ i) : l.getD i d = d := by
  induction l generalizing i with
  | nil => rfl
  | cons x xs ih =>
    cases i with
    | zero => simp at h
    | succ j => simpa using ih j (by simpa using h)

theorem getThread_reinsert (st : State) (t u : Nat) :
    getThread (thread_reinsert_ready_list st t) u = getThread st u := by
  unfold getThread
  rw [threads_reinsert]

theorem getThread_reset (st : State) (t : Nat) (ht : t < st.threads.length) :
    getThread (thread_reset_priority st t) t
      = { getThread st t with
          priority :=
            if thread_get_donated_priority st t > (getThread st t).base_priority
            then thread_get_donated_priority st t
            else (getThread st t).base_priority } := by
  simp only [thread_reset_priority]
  rw [getThread_reinsert, getThread_setThread_self, if_pos ht]

theorem calc_bsd_priority_range (rc n : Int) :
    PRI_MIN ≤ calc_bsd_priority rc n ∧ calc_bsd_priority rc n ≤ PRI_MAX := by
  simp only [calc_bsd_priority]
  split_ifs with h1 h2 <;> constructor <;> simp [PRI_MIN, PRI_MAX] at * <;> omega

/-! Claim theorems. -/

/-- C1: for every thread `t` whose donations list is sorted descending by
donor effective priority, `thread_reset_priority t` sets `t.priority` to
`max (base_priority, max of the donor priorities)`, and to exactly
`t.base_priority` when the donations list is empty. -/
theorem reset_priority_is_max_of_base_and_donations
    (st : State) (t : Nat)
    (ht : t < st.threads.length)
    (hbase : PRI_MIN ≤ (getThread st t).base_priority)
    (hsorted : ((getThread st t).donations.map
        (fun d => (getThread st d).priority)).Sorted (· ≥ ·)) :
    (getThread (thread_reset_priority st t) t).priority
      = ((getThread st t).donations.map (fun d => (getThread st d).priority)).foldl
          max (getThread st t).base_priority
    ∧ ((getThread st t).donations = [] →
        (getThread (thread_reset_priority st t) t).priority
          = (getThread st t).base_priority) := by
  have hreset := getThread_reset st t ht
  have hbase' : (0 : Int) ≤ (getThread st t).base_priority := by
    simpa [PRI_MIN] using hbase
  have hmain : (getThread (thread_reset_priority st t) t).priority
      = ((getThread st t).donations.map (fun d => (getThread st d).priority)).foldl
          max (getThread st t).base_priority := by
    rw [hreset]
    rcases hd : (getThread st t).donations with _ | ⟨d, rest⟩
    · simp only [thread_get_donated_priority, hd, List.map_nil, List.foldl_nil]
      rw [if_neg (by simp [PRI_MIN]; omega)]
    · simp only [thread_get_donated_priority, hd, List.map_cons, List.foldl_cons]
      rw [hd] at hsorted
      simp only [List.map_cons, List.sorted_cons] at hsorted
      have hrest : ∀ x ∈ rest.map (fun d => (getThread st d).priority),
          x ≤ max (getThread st t).base_priority (getThread st d).priority := by
        intro x hx
        exact le_trans (hsorted.1 x hx) (le_max_right _ _)
      rw [foldl_max_eq hrest]
      rcases le_or_lt (getThread st d).priority (getThread st t).base_priority with h | h
      · rw [if_neg (by omega), max_eq_left h]
      · rw [if_pos (by omega), max_eq_right (le_of_lt h)]
  refine ⟨hmain, fun hemp => ?_⟩
  rw [hmain, hemp, List.map_nil, List.foldl_nil]

/-- C1 witness: in `exampleResetState` thread 0 has base priority 10 and
donations `[1, 2]` with priorities `[30, 20]` (sorted descending);
`thread_reset_priority` sets its effective priority to 30. -/
theorem reset_priority_is_max_of_base_and_donations_witness :
    (getThread (thread_reset_priority exampleResetState 0) 0).priority = 30 :=
  (reset_priority_is_max_of_base_and_donations exampleResetState 0
    (by decide) (by decide) (by decide)).1.trans (by decide)

/-- C2 (code bug): `thread_donate_priority` does not terminate when the
chain reaches a lock with a `NULL` holder.  In `divergeState` thread 0 has
`required_lock` pointing at lock 0 whose holder is `NULL`; because the loop
body neither advances `t` nor clears `t->required_lock` in that case, the
`while (t->required_lock != NULL)` condition never changes, so for every
amount of fuel the walk fails to complete (the spec instead requires the
null holder to be silently skipped and the walk to complete). -/
theorem donate_priority_diverges_on_null_holder :
    ∀ fuel : Nat, thread_donate_priority fuel divergeState 0 = none := by
  intro fuel
  induction fuel with
  | zero => rfl
  | succ n ih =>
    have hstep : thread_donate_priority (n + 1) divergeState 0
        = thread_donate_priority n divergeState 0 := rfl
    rw [hstep]
    exact ih

/-- C3 (code bug): at a timer tick whose post-increment tick count is a
multiple of 4 (here tick 4, with `TIMER_FREQ = 100`), the tick hook does
not recompute thread priorities: in `tickState` the running thread keeps
its stale priority 63 although the MLFQS formula value for its updated
`recent_cpu` is 60 (the code's own comment says priority is recalculated
every 4 ticks, but `thread_recalculate_bsd_variables` contains no such
step; priorities are only recomputed inside `schedule`). -/
theorem thread_tick_skips_priority_recompute :
    4 % 4 = 0
    ∧ (getThread (thread_tick 100 4 tickState).1 0).priority = 63
    ∧ calc_bsd_priority (getThread (thread_tick 100 4 tickState).1 0).recent_cpu
        (getThread (thread_tick 100 4 tickState).1 0).nice = 60
    ∧ (thread_tick 100 4 tickState).1.ready_list = tickState.ready_list := by
  refine ⟨rfl, ?_, ?_, ?_⟩ <;> decide

/-- C4: after `thread_calculate_bsd_priority` runs on any thread, for every
value of that thread's `recent_cpu` and every `nice` in
`[NICE_MIN, NICE_MAX]`, the thread's priority lies in
`[PRI_MIN, PRI_MAX]` (the final clamp guarantees it). -/
theorem bsd_priority_in_range (st : State) (t : Nat)
    (h1 : NICE_MIN ≤ (getThread st t).nice)
    (h2 : (getThread st t).nice ≤ NICE_MAX) :
    PRI_MIN ≤ (getThread (thread_calculate_bsd_priority st t) t).priority
    ∧ (getThread (thread_calculate_bsd_priority st t) t).priority ≤ PRI_MAX := by
  unfold thread_calculate_bsd_priority
  rw [getThread_setThread_self]
  split
  · exact calc_bsd_priority_range _ _
  · rename_i hlen
    unfold getThread
    rw [getD_out_of_range _ _ _ (by omega)]
    refine ⟨by norm_num [defaultThread, PRI_MIN], by norm_num [defaultThread, PRI_MAX]⟩

/-- C4 witness: in `tickState` thread 0 has `nice = 0` and
`recent_cpu = 131072`; after recomputation its priority is within
`[PRI_MIN, PRI_MAX]`. -/
theorem bsd_priority_in_range_witness :
    PRI_MIN ≤ (getThread (thread_calculate_bsd_priority tickState 0) 0).priority
    ∧ (getThread (thread_calculate_bsd_priority tickState 0) 0).priority ≤ PRI_MAX :=
  bsd_priority_in_range tickState 0 (by decide) (by decide)

/-- C9: when `thread_mlfqs` is set, `thread_set_priority p` for any `p` in
`[PRI_MIN, PRI_MAX]` is a complete no-op: the state (hence the current
thread's base and effective priorities, the ready queue, and the running
thread) is returned unchanged and no yield happens. -/
theorem set_priority_mlfqs_noop (st : State) (p : Int)
    (hm : st.mlfqs = true) (h1 : PRI_MIN ≤ p) (h2 : p ≤ PRI_MAX) :
    thread_set_priority st p = some (st, false) := by
  unfold thread_set_priority
  rw [if_pos ⟨h1, h2⟩, hm]
  rfl

/-- C9 witness: `thread_set_priority 31` on the MLFQS state `niceState`
returns the state unchanged. -/
theorem set_priority_mlfqs_noop_witness :
    thread_set_priority niceState 31 = some (niceState, false) :=
  set_priority_mlfqs_noop niceState 31 (by decide) (by decide) (by decide)

/-- C10: `thread_remove_donation` is idempotent: after a call on `t` the
donation hook tombstone (`dona_elem.next`) is null; a further call on `t`
is a no-op on the whole state (hence on every donations list); and a call
on a thread whose hook is already detached changes nothing. -/
theorem remove_donation_idempotent (st : State) (t : Nat) :
    (getThread (thread_remove_donation st t) t).dona_linked = false
    ∧ thread_remove_donation (thread_remove_donation st t) t
        = thread_remove_donation st t
    ∧ ((getThread st t).dona_linked = false → thread_remove_donation st t = st) := by
  have hA : (getThread (thread_remove_donation st t) t).dona_linked = false := by
    unfold thread_remove_donation
    split
    · rw [getThread_setThread_self]
      split
      · rfl
      · rename_i hcond hlen
        unfold getThread removeFromDonations
        simp only []
        rw [getD_out_of_range]
        · rfl
        · simp only [List.length_map]
          simp only [removeFromDonations, List.length_map] at hlen
          omega
    · rename_i hcond
      simpa using hcond
  refine ⟨hA, ?_, ?_⟩
  · generalize hR : thread_remove_donation st t = R at hA ⊢
    unfold thread_remove_donation
    rw [hA]
    rfl
  · intro h
    unfold thread_remove_donation
    rw [h]
    rfl

/-- C10 witness: in `removeState` thread 0's hook is detached; applying the
idempotence theorem at that state shows the tombstone stays null and the
call changes nothing. -/
theorem remove_donation_idempotent_witness :
    (getThread (thread_remove_donation removeState 0) 0).dona_linked = false
    ∧ thread_remove_donation removeState 0 = removeState :=
  ⟨(remove_donation_idempotent removeState 0).1,
   (remove_donation_idempotent removeState 0).2.2 (by decide)⟩

theorem ready_size_nonneg (st : State) : 0 ≤ get_ready_threads_size st := by
  unfold get_ready_threads_size
  have h := Int.natCast_nonneg st.ready_list.length
  split <;> omega

/-- C5 counterexample: `thread_set_nice 21` does not clamp the argument to
`NICE_MAX = 20`; the `ASSERT (nice >= NICE_MIN && nice <= NICE_MAX)` fails
(kernel panic, modelled `none`), so no state with `nice = 20` is produced. -/
theorem set_nice_out_of_range_asserts : thread_set_nice niceState 21 = none := by
  decide

/-- C5 (amended): for `nice` already in `[NICE_MIN, NICE_MAX]`,
`thread_set_nice` stores the value unchanged as the current thread's
`nice`, recomputes its priority with the MLFQS formula, leaves the ready
queue unchanged (the running thread is not in it, so no re-insertion is
needed), and yields exactly when a strictly higher-priority ready thread
exists; out-of-range arguments are an assertion failure, not a clamp. -/
theorem set_nice_in_range_spec (st : State) (nice : Int)
    (hm : st.mlfqs = true)
    (h1 : NICE_MIN ≤ nice) (h2 : nice ≤ NICE_MAX)
    (hlen : st.current < st.threads.length)
    (hrun : (getThread st st.current).status = Status.RUNNING) :
    ∃ st' yld,
      thread_set_nice st nice = some (st', yld)
      ∧ (getThread st' st.current).nice = nice
      ∧ (getThread st' st.current).priority
          = calc_bsd_priority (getThread st st.current).recent_cpu nice
      ∧ st'.ready_list = st.ready_list
      ∧ (yld = true ↔ thread_get_max_priority st' > thread_get_priority st') := by
  have hst1 : getThread (setThread st st.current
      { getThread st st.current with nice := nice }) st.current
      = { getThread st st.current with nice := nice } := by
    rw [getThread_setThread_self, if_pos hlen]
  have hlen1 : st.current <
      (setThread st st.current { getThread st st.current with nice := nice }).threads.length := by
    simp [setThread, hlen]
  have hst2 : getThread (thread_calculate_bsd_priority
      (setThread st st.current { getThread st st.current with nice := nice })
      st.current) st.current
      = { getThread st st.current with
          nice := nice,
          priority := calc_bsd_priority (getThread st st.current).recent_cpu nice } := by
    unfold thread_calculate_bsd_priority
    rw [getThread_setThread_self, if_pos hlen1, hst1]
  have hreins : thread_reinsert_ready_list (thread_calculate_bsd_priority
      (setThread st st.current { getThread st st.current with nice := nice })
      st.current) st.current
      = thread_calculate_bsd_priority
          (setThread st st.current { getThread st st.current with nice := nice })
          st.current := by
    unfold thread_reinsert_ready_list
    rw [hst2]
    simp [hrun]
  refine ⟨thread_reinsert_ready_list (thread_calculate_bsd_priority
      (setThread st st.current { getThread st st.current with nice := nice })
      st.current) st.current,
    thread_max_yield_decision (thread_reinsert_ready_list (thread_calculate_bsd_priority
      (setThread st st.current { getThread st st.current with nice := nice })
      st.current) st.current), ?_, ?_, ?_, ?_, ?_⟩
  · unfold thread_set_nice
    rw [if_pos ⟨hm, ⟨h1, h2⟩, hrun⟩]
  · rw [hreins, hst2]
  · rw [hreins, hst2]
  · rw [hreins]
    rfl
  · unfold thread_max_yield_decision
    simp

/-- C5 witness: `thread_set_nice 5` on `niceState` (whose current thread has
`recent_cpu = 0`) succeeds, stores `nice = 5`, recomputes the priority by
the MLFQS formula, and leaves the ready queue unchanged. -/
theorem set_nice_in_range_spec_witness :
    Option.map (fun r => ((getThread r.1 0).nice, (getThread r.1 0).priority, r.1.ready_list))
        (thread_set_nice niceState 5)
      = some (5, calc_bsd_priority 0 5, niceState.ready_list) := by
  obtain ⟨st', yld, hc, h2, h3, h4, _⟩ :=
    set_nice_in_range_spec niceState 5 (by decide) (by decide) (by decide)
      (by decide) (by decide)
  have h2' : (getThread st' 0).nice = 5 := h2
  have h3' : (getThread st' 0).priority = calc_bsd_priority 0 5 := h3
  rw [hc, Option.map]
  simp [h2', h3', h4]

/-- C6 counterexample: with `load_avg = 2.0` (`32768` in 17.14) and zero
ready threads, the update stores `32220` while the exact rational recurrence
gives `59 * 32768 / 60 = 32221.866...`: the error is `112/60 ≈ 1.87` ulp,
more than 1 ulp. -/
theorem load_avg_error_exceeds_one_ulp :
    (60 * (thread_calculate_load_avg loadState).load_avg
      - (59 * loadState.load_avg + 16384 * get_ready_threads_size loadState)).natAbs
      > 60 := by
  decide

/-- C6 (amended): each call to `thread_calculate_load_avg` replaces
`load_avg` by `tdiv (16110 * load_avg) 16384 + 273 * ready_thread_count`
(the coefficients `59/60` and `1/60` being pre-truncated to `16110/16384`
and `273/16384`), which matches the exact rational recurrence
`(59*load_avg + 16384*ready)/60` only to within
`1 + (14/15)*load_avg + ready/15` ulp, not 1 ulp: scaled by `60 * 16384`,
the absolute error is bounded by `56*|load_avg| + 65536*ready + 982980`. -/
theorem load_avg_code_formula_error_bound (st : State) :
    (thread_calculate_load_avg st).load_avg
      = (16110 * st.load_avg).tdiv 16384 + 273 * get_ready_threads_size st
    ∧ (16384 * (60 * (thread_calculate_load_avg st).load_avg
          - (59 * st.load_avg + 16384 * get_ready_threads_size st))).natAbs
        ≤ 56 * st.load_avg.natAbs
          + 65536 * (get_ready_threads_size st).natAbs + 982980 := by
  have e1 : div_fixed_by_int (convert_to_fixed_point 59) 60 = 16110 := by decide
  have e2 : div_fixed_by_int (convert_to_fixed_point 1) 60 = 273 := by decide
  have hform : (thread_calculate_load_avg st).load_avg
      = (16110 * st.load_avg).tdiv 16384 + 273 * get_ready_threads_size st := by
    simp only [thread_calculate_load_avg, e1, e2, multiply_fixed_by_fixed,
      multiply_fixed_by_int, add_fixed_to_fixed, F]
    norm_num
  refine ⟨hform, ?_⟩
  rw [hform]
  have hR := ready_size_nonneg st
  have hdm : 16384 * ((16110 * st.load_avg).tdiv 16384)
      + (16110 * st.load_avg).tmod 16384 = 16110 * st.load_avg :=
    Int.tdiv_add_tmod _ _
  have hb := tmod_bounds (16110 * st.load_avg) (b := 16384) (by norm_num)
  omega

/-- C7 counterexample: at `n = 2^17 = 131072`, `convert_to_fixed_point`
overflows `int32_t` (`131072 * 16384 = 2^31` wraps to `-2^31`) and the
round trip returns `131071`, not `131072`, under the 32-bit signed
arithmetic of the macros. -/
theorem fixed_point_roundtrip_fails_at_2_pow_17 :
    convert_to_int_round_nearest_i32 (convert_to_fixed_point_i32 131072) = 131071
    ∧ (131071 : Int) ≠ 131072 := by
  decide

/-- C7 (amended): the fixed-point round trip
`convert_to_int_round_nearest (convert_to_fixed_point n) = n` holds for all
integers `n` strictly between `-2^17` and `2^17` (at the two endpoints the
32-bit multiplication by `F` or the `± F/2` adjustment overflows). -/
theorem fixed_point_roundtrip (n : Int) (hlo : -(2 ^ 17) < n) (hhi : n < 2 ^ 17) :
    convert_to_int_round_nearest_i32 (convert_to_fixed_point_i32 n) = n := by
  have hF : F = 16384 := by decide
  have h1 : convert_to_fixed_point_i32 n = n * 16384 := by
    unfold convert_to_fixed_point_i32
    rw [hF, wrap32_eq_self (by omega) (by omega)]
  rw [h1]
  unfold convert_to_int_round_nearest_i32
  have h2 : F.tdiv 2 = 8192 := by decide
  rw [h2, hF]
  rcases le_or_lt 0 n with hn | hn
  · rw [if_pos (by positivity), wrap32_eq_self (by omega) (by omega),
      Int.tdiv_eq_ediv (by omega) (by norm_num)]
    omega
  · rw [if_neg (by nlinarith), wrap32_eq_self (by omega) (by omega)]
    have h3 : n * 16384 - 8192 = -((-n) * 16384 + 8192) := by ring
    rw [h3, Int.neg_tdiv, Int.tdiv_eq_ediv (by nlinarith) (by norm_num)]
    omega

/-- C7 witness: the round trip at `n = -5` returns `-5`. -/
theorem fixed_point_roundtrip_witness :
    convert_to_int_round_nearest_i32 (convert_to_fixed_point_i32 (-5)) = -5 :=
  fixed_point_roundtrip (-5) (by decide) (by decide)

theorem unblock_some_props (st : State) (t : Nat) (st4 : State)
    (h : thread_unblock st t = some st4) :
    st4.next_tid = st.next_tid
    ∧ st4.all_list = st.all_list
    ∧ (t < st.threads.length →
        getThread st4 t = { getThread st t with status := Status.READY }) := by
  unfold thread_unblock at h
  split at h
  · rename_i hb
    injection h with h
    subst h
    refine ⟨rfl, rfl, fun hlen => ?_⟩
    rw [getThread_setThread_self]
    split
    · rfl
    · rename_i hlen2
      exact absurd hlen hlen2
  · exact absurd h (by simp)

/-- C8: `thread_create` returns `TID_ERROR` (modelled `none`) exactly when
the page allocation fails, leaving the scheduler state (in particular
`all_list` and `ready_list`) unchanged; on success it returns the new
thread's id, namely the value of the monotonically increasing counter
`next_tid` (positive, since the counter starts at 1 and only increments),
and the counter is advanced so the next creation gets a strictly larger
id. -/
theorem thread_create_spec (st : State) (p : Int) :
    thread_create st false p = some (none, st)
    ∧ (PRI_MIN ≤ p → p ≤ PRI_MAX → 1 ≤ st.next_tid →
        ∃ st', thread_create st true p = some (some st.next_tid, st')
          ∧ 1 ≤ st.next_tid
          ∧ st'.next_tid = st.next_tid + 1
          ∧ st'.all_list = st.all_list ++ [st.threads.length]
          ∧ (getThread st' st.threads.length).tid = st.next_tid
          ∧ (getThread st' st.threads.length).status = Status.READY) := by
  constructor
  · unfold thread_create
    rw [if_pos rfl]
  · intro hp1 hp2 hn
    have hinit : init_thread st p = some
        { st with
          threads := st.threads ++ [{ defaultThread with
            status := Status.BLOCKED, priority := p, base_priority := p }],
          all_list := st.all_list ++ [st.threads.length] } := by
      unfold init_thread
      rw [if_pos ⟨hp1, hp2⟩]
    unfold thread_create
    rw [if_neg (by simp), hinit]
    simp only [allocate_tid]
    simp only [getThread, setThread, getD_concat_length, set_concat_length,
      thread_unblock, reduceIte]
    refine ⟨_, rfl, hn, rfl, rfl, ?_, ?_⟩
    · simp only [getThread, setThread, getD_concat_length, set_concat_length]
    · simp only [getThread, setThread, getD_concat_length, set_concat_length]

/-- C8 witness: on `baseState` (empty scheduler, `next_tid = 1`), a failed
allocation returns `TID_ERROR` with the state unchanged, and a successful
creation at priority 31 returns tid 1. -/
theorem thread_create_spec_witness :
    thread_create baseState false 31 = some (none, baseState)
    ∧ Option.map (fun r => r.1) (thread_create baseState true 31) = some (some 1) := by
  have h := thread_create_spec baseState 31
  obtain ⟨st', hc, -, -, -, -, -⟩ := h.2 (by decide) (by decide) (by decide)
  exact ⟨h.1, by rw [hc]; rfl⟩
